import Mathlib

/-!
Shallow embedding of `src/demo.py` (class `DocumentProcessor`) and proofs
about its behaviour.

External services (Azure OpenAI embeddings, the MongoDB `$vectorSearch`
stage, the OpenFGA HTTP endpoints, the `unstructured` partitioner) are
modelled as explicit function parameters; the code of `demo.py` itself is
translated line by line into the definitions below.
-/

namespace Demo

/-- An embedding vector as returned by the embeddings service.  Its numeric
content is irrelevant to every property proved here, so it is kept abstract
as a list of integers. -/
def Embedding := List Int

deriving instance DecidableEq, Repr for Embedding

/-- The tuple key JSON object sent to / stored by OpenFGA:
`{"user": ..., "relation": ..., "object": ...}`. -/
structure TupleKey where
  user : String
  relation : String
  object : String
deriving DecidableEq, Repr

/-- Outcome of one `check_authorization` call, i.e. of
`requests.post(...).json()` followed by the subscript `response["allowed"]`
in `search_tool`:
* `ok b` — the request succeeded and the JSON body carried the boolean
  field `allowed = b`;
* `err` — the request raised (service unavailable) or the body had no
  `allowed` field (error response), so the subscript raises. -/
inductive CheckResult where
  | ok (allowed : Bool)
  | err
deriving DecidableEq, Repr

/-- One document element produced by `partition(resource)`: its `text` and
the rendering of `to_dict()` stored under `metadata.raw_element`. -/
structure Element where
  text : String
  dict : String
deriving DecidableEq, Repr

/-- One MongoDB document of the collection, as inserted by
`partition_pdf`: `{"text": ..., "embeddings": ..., "metadata": ...,
"source": resource}`. -/
structure Chunk where
  text : String
  embeddings : Embedding
  metadata : String
  source : String
deriving DecidableEq, Repr

/-- A Python value, as far as the return channels of `demo.py` use it.
`search_tool` falls off the end of its body, so Python returns `none`;
the constructors for strings and chunk lists witness that the type could
have carried a result set back to the caller. -/
inductive PyValue where
  | none
  | str (s : String)
  | chunkList (cs : List Chunk)
deriving DecidableEq, Repr

/-- The tuple key written by `add_tuple(USER, RESOURCE)` inside
`"writes"."tuple_keys"`. -/
def addTupleKey (USER RESOURCE : String) : TupleKey :=
  { user := "user:" ++ USER, relation := "viewer", object := "doc:" ++ RESOURCE }

/-- The list of tuple keys in the body of the `add_tuple` write request
(the source sends exactly one). -/
def addTupleWriteKeys (USER RESOURCE : String) : List TupleKey :=
  [addTupleKey USER RESOURCE]

/-- The tuple key built for one candidate inside the loop of
`search_tool`: `{"user": "user:"+USER_ID, "relation": "viewer",
"object": "doc:"+doc["source"]}`. -/
def searchTupleKey (USER_ID source : String) : TupleKey :=
  { user := "user:" ++ USER_ID, relation := "viewer", object := "doc:" ++ source }

/-- The `$vectorSearch` stage built by `search_tool`, with its literal
field values from the source. -/
structure VSQuery where
  index : String
  path : String
  queryVector : Embedding
  limit : Nat
  numCandidates : Nat
deriving DecidableEq

/-- The aggregate stage `search_tool` sends: index `"vector_index"`, path
`"embeddings"`, `limit: 5`, `numCandidates: 30`, and the query vector is
the embedding of the query text. -/
def searchQuery (embed : String → Embedding) (text : String) : VSQuery :=
  { index := "vector_index"
    path := "embeddings"
    queryVector := embed text
    limit := 5
    numCandidates := 30 }

/-- A line printed by the loop of `search_tool`: the "Access Granted" /
"Access Denied" messages, carrying the user id and the document source
they interpolate. -/
inductive Event where
  | accessGranted (userId source : String)
  | accessDenied (userId source : String)
deriving DecidableEq, Repr

/-- The observable outcome of one `search_tool` call: the lines printed in
order, whether an exception propagated out of the call, and the value the
call returned to its caller (meaningful only when nothing was raised). -/
structure SearchRun where
  events : List Event
  raised : Bool
  retval : PyValue
deriving DecidableEq, Repr

/-- The `for doc in response:` loop of `search_tool`.  For each candidate
it checks `searchTupleKey USER_ID doc.source`; `ok true` prints the
granted line, `ok false` prints the denied line, and `err` models the
exception raised at the `allowed` subscript, which aborts the loop (and
the whole call) after the lines already printed. -/
def searchLoop (check : TupleKey → CheckResult) (USER_ID : String) :
    List Chunk → SearchRun
  | [] => { events := [], raised := false, retval := PyValue.none }
  | doc :: rest =>
    match check (searchTupleKey USER_ID doc.source) with
    | CheckResult.err => { events := [], raised := true, retval := PyValue.none }
    | CheckResult.ok true =>
      let r := searchLoop check USER_ID rest
      { r with events := Event.accessGranted USER_ID doc.source :: r.events }
    | CheckResult.ok false =>
      let r := searchLoop check USER_ID rest
      { r with events := Event.accessDenied USER_ID doc.source :: r.events }

/-- `search_tool(text, USER_ID)`: embed the query text, run the
`$vectorSearch` aggregate against the collection state, then loop over the
returned candidates checking each against OpenFGA.  `vectorSearch` models
the MongoDB aggregate: given the stage and the collection it returns the
ranked candidate list. -/
def search_tool (embed : String → Embedding)
    (vectorSearch : VSQuery → List Chunk → List Chunk)
    (check : TupleKey → CheckResult)
    (state : List Chunk) (text USER_ID : String) : SearchRun :=
  searchLoop check USER_ID (vectorSearch (searchQuery embed text) state)

/-- The chunk document `partition_pdf` inserts for one element:
text, its embedding under model `"text-embedding-ada-002"`, the raw
element under metadata, and `source := resource`. -/
def chunkOf (embed : String → String → Embedding) (resource : String)
    (e : Element) : Chunk :=
  { text := e.text
    embeddings := embed e.text "text-embedding-ada-002"
    metadata := e.dict
    source := resource }

/-- One write issued by `partition_pdf` against the collection. -/
inductive DbOp where
  | deleteAllDocs
  | insertOne (c : Chunk)
deriving DecidableEq, Repr

/-- Effect of one write on the collection state. -/
def applyOp (s : List Chunk) : DbOp → List Chunk
  | DbOp.deleteAllDocs => []
  | DbOp.insertOne c => s ++ [c]

/-- Effect of a sequence of writes, in order. -/
def applyOps (ops : List DbOp) (s : List Chunk) : List Chunk :=
  ops.foldl applyOp s

/-- The sequence of collection writes issued by `partition_pdf(resource)`:
first `delete_many({})` — an unconditional delete of every document — then
one `insert_one` per element of `partition(resource)`, in order. -/
def partitionPdfOps (partitionFn : String → List Element)
    (embed : String → String → Embedding) (resource : String) : List DbOp :=
  DbOp.deleteAllDocs ::
    (partitionFn resource).map (fun e => DbOp.insertOne (chunkOf embed resource e))

/-- `partition_pdf(resource)` as a state transformer on the collection:
the state after applying its writes to the prior state. -/
def partition_pdf (partitionFn : String → List Element)
    (embed : String → String → Embedding)
    (s : List Chunk) (resource : String) : List Chunk :=
  applyOps (partitionPdfOps partitionFn embed resource) s

/-- One externally visible step of `main(user, resource)`. -/
inductive MainStep where
  | fgaWrite (k : TupleKey)
  | dbOp (op : DbOp)
  | sleep (secs : Nat)
  | searchCall (text userId : String)
deriving DecidableEq, Repr

/-- The trace of `main(user, resource)`: `fga_setup` (which calls
`add_tuple(user, resource)`), then `partition_pdf(resource)`, then the
15-second sleep, then the two `search_tool` calls. -/
def mainTrace (partitionFn : String → List Element)
    (embed : String → String → Embedding)
    (user resource : String) : List MainStep :=
  MainStep.fgaWrite (addTupleKey user resource) ::
    (partitionPdfOps partitionFn embed resource).map MainStep.dbOp ++
    [MainStep.sleep 15,
     MainStep.searchCall "test" user,
     MainStep.searchCall "test" (user ++ "-denyme")]

/-! ### Helper lemmas about the search loop and ingestion -/

/-- An "Access Granted" line is printed only for a candidate whose check
came back `ok true`. -/
lemma searchLoop_granted_ok (check : TupleKey → CheckResult) (u : String) :
    ∀ (docs : List Chunk) (s : String),
      Event.accessGranted u s ∈ (searchLoop check u docs).events →
      check (searchTupleKey u s) = CheckResult.ok true := by
  intro docs
  induction docs with
  | nil => intro s h; simp [searchLoop] at h
  | cons doc rest ih =>
    intro s h
    cases hc : check (searchTupleKey u doc.source) with
    | err => simp [searchLoop, hc] at h
    | ok b =>
      cases b with
      | true =>
        simp only [searchLoop, hc] at h
        rcases List.mem_cons.mp h with heq | hmem
        · obtain ⟨-, hs⟩ := Event.accessGranted.inj heq
          rw [hs]; exact hc
        · exact ih s hmem
      | false =>
        simp only [searchLoop, hc] at h
        rcases List.mem_cons.mp h with heq | hmem
        · exact absurd heq (by simp)
        · exact ih s hmem

/-- If every candidate check comes back with an `allowed` field, the loop
completes without raising. -/
lemma searchLoop_not_raised (check : TupleKey → CheckResult) (u : String) :
    ∀ (docs : List Chunk),
      (∀ doc ∈ docs, check (searchTupleKey u doc.source) ≠ CheckResult.err) →
      (searchLoop check u docs).raised = false := by
  intro docs
  induction docs with
  | nil => intro _; simp [searchLoop]
  | cons doc rest ih =>
    intro h
    cases hc : check (searchTupleKey u doc.source) with
    | err => exact absurd hc (h doc (List.mem_cons_self doc rest))
    | ok b =>
      cases b with
      | true =>
        simp only [searchLoop, hc]
        exact ih (fun d hd => h d (List.mem_cons_of_mem doc hd))
      | false =>
        simp only [searchLoop, hc]
        exact ih (fun d hd => h d (List.mem_cons_of_mem doc hd))

/-- If some candidate check fails, the exception propagates: the whole
`search_tool` call raises. -/
lemma searchLoop_raised_of_err (check : TupleKey → CheckResult) (u : String) :
    ∀ (docs : List Chunk),
      (∃ doc ∈ docs, check (searchTupleKey u doc.source) = CheckResult.err) →
      (searchLoop check u docs).raised = true := by
  intro docs
  induction docs with
  | nil => rintro ⟨d, hd, -⟩; simp at hd
  | cons doc rest ih =>
    rintro ⟨d, hd, hde⟩
    cases hc : check (searchTupleKey u doc.source) with
    | err => simp [searchLoop, hc]
    | ok b =>
      rcases List.mem_cons.mp hd with heq | hmem
      · rw [heq] at hde; rw [hde] at hc; exact absurd hc (by simp)
      · cases b with
        | true => simp only [searchLoop, hc]; exact ih ⟨d, hmem, hde⟩
        | false => simp only [searchLoop, hc]; exact ih ⟨d, hmem, hde⟩

/-- When no check fails, every denied candidate gets its "Access Denied"
line printed. -/
lemma searchLoop_denied_mem (check : TupleKey → CheckResult) (u : String) :
    ∀ (docs : List Chunk),
      (∀ doc ∈ docs, check (searchTupleKey u doc.source) ≠ CheckResult.err) →
      ∀ doc ∈ docs, check (searchTupleKey u doc.source) = CheckResult.ok false →
        Event.accessDenied u doc.source ∈ (searchLoop check u docs).events := by
  intro docs
  induction docs with
  | nil => intro _ d hd; simp at hd
  | cons doc rest ih =>
    intro h d hd hdf
    cases hc : check (searchTupleKey u doc.source) with
    | err => exact absurd hc (h doc (List.mem_cons_self doc rest))
    | ok b =>
      rcases List.mem_cons.mp hd with heq | hmem
      · subst heq
        rw [hdf] at hc
        obtain hb := (CheckResult.ok.inj hc)
        cases b with
        | true => exact absurd hb (by simp)
        | false => simp [searchLoop, hc, hdf]
      · have htail := ih (fun x hx => h x (List.mem_cons_of_mem doc hx)) d hmem hdf
        cases b with
        | true =>
          simp only [searchLoop, hc]
          exact List.mem_cons_of_mem _ htail
        | false =>
          simp only [searchLoop, hc]
          exact List.mem_cons_of_mem _ htail

/-- The loop never returns a value: Python falls off the end of the body,
yielding `None`. -/
lemma searchLoop_retval (check : TupleKey → CheckResult) (u : String) :
    ∀ (docs : List Chunk), (searchLoop check u docs).retval = PyValue.none := by
  intro docs
  induction docs with
  | nil => simp [searchLoop]
  | cons doc rest ih =>
    cases hc : check (searchTupleKey u doc.source) with
    | err => simp [searchLoop, hc]
    | ok b => cases b <;> simp only [searchLoop, hc] <;> exact ih

/-- Inserting a mapped list of chunks appends them to the accumulator. -/
lemma applyOps_inserts : ∀ (cs : List Chunk) (acc : List Chunk),
    applyOps (cs.map DbOp.insertOne) acc = acc ++ cs := by
  intro cs
  induction cs with
  | nil => intro acc; simp [applyOps]
  | cons c cs ih =>
    intro acc
    simp only [List.map_cons, applyOps, List.foldl_cons, applyOp]
    have := ih (acc ++ [c])
    simp only [applyOps] at this
    rw [this]
    simp

/-- The collection state after `partition_pdf` is exactly the freshly
inserted chunks, independent of the prior state: the unconditional
`delete_many` wipes everything first. -/
lemma partition_pdf_eq (p : String → List Element)
    (e : String → String → Embedding) (s : List Chunk) (resource : String) :
    partition_pdf p e s resource = (p resource).map (chunkOf e resource) := by
  unfold partition_pdf partitionPdfOps applyOps
  simp only [List.foldl_cons]
  have h0 : applyOp s DbOp.deleteAllDocs = [] := rfl
  rw [h0]
  have h2 := applyOps_inserts ((p resource).map (chunkOf e resource)) []
  simp only [applyOps, List.map_map, Function.comp, List.nil_append] at h2
  exact h2

/-! ### Concrete fixtures for witnesses and counterexamples -/

/-- A trivial embeddings service used in concrete runs. -/
def embed0 : String → Embedding := fun _ => ([] : List Int)

/-- A trivial ingestion embeddings service used in concrete runs. -/
def embedIngest0 : String → String → Embedding := fun _ _ => ([] : List Int)

/-- A concrete chunk whose source document is `a.pdf`. -/
def chunkA : Chunk :=
  { text := "alpha", embeddings := ([] : List Int), metadata := "", source := "a.pdf" }

/-- A concrete chunk whose source document is `b.pdf`. -/
def chunkB : Chunk :=
  { text := "beta", embeddings := ([] : List Int), metadata := "", source := "b.pdf" }

/-- A vector index returning the single candidate `chunkA`. -/
def vs1 : VSQuery → List Chunk → List Chunk := fun _ _ => [chunkA]

/-- A vector index returning the candidates `chunkA` then `chunkB`. -/
def vs2 : VSQuery → List Chunk → List Chunk := fun _ _ => [chunkA, chunkB]

/-- An authorization service granting user `u` the viewer relation on
`a.pdf` and denying everything else. -/
def checkOnlyA : TupleKey → CheckResult := fun k =>
  if k = searchTupleKey "u" "a.pdf" then CheckResult.ok true else CheckResult.ok false

/-- An authorization service that is unavailable: every check fails. -/
def checkErr : TupleKey → CheckResult := fun _ => CheckResult.err

/-- An authorization service that denies every check (a subject with no
granted tuple at all). -/
def checkDenyAll : TupleKey → CheckResult := fun _ => CheckResult.ok false

/-- A partitioner producing no element. -/
def partitionEmpty : String → List Element := fun _ => []

/-- A partitioner producing one element. -/
def partitionOne : String → List Element :=
  fun _ => [{ text := "alpha", dict := "d" }]

/-- The "Access Granted" lines of a run: the candidates disclosed to the
caller as accessible. -/
def grantedEvents (r : SearchRun) : List Event :=
  r.events.filter fun e =>
    match e with
    | Event.accessGranted _ _ => true
    | Event.accessDenied _ _ => false

/-! ### Claims -/

/-- C1: every candidate disclosed as accessible by `search_tool` (an
"Access Granted" line) belongs to a source document whose check
`(user:S, viewer, doc:source)` returned `allowed = true` at query time;
denied or failed-to-check candidates are never disclosed as accessible. -/
theorem claim_C1 (embed : String → Embedding)
    (vectorSearch : VSQuery → List Chunk → List Chunk)
    (check : TupleKey → CheckResult) (state : List Chunk)
    (text USER_ID source : String)
    (h : Event.accessGranted USER_ID source ∈
      (search_tool embed vectorSearch check state text USER_ID).events) :
    check (searchTupleKey USER_ID source) = CheckResult.ok true :=
  searchLoop_granted_ok check USER_ID
    (vectorSearch (searchQuery embed text) state) source h

/-- Witness for C1 at a concrete run: `chunkA` is disclosed and its check
is `ok true`. -/
theorem claim_C1_witness :
    (Event.accessGranted "u" "a.pdf" ∈
      (search_tool embed0 vs1 checkOnlyA [] "q" "u").events) ∧
    checkOnlyA (searchTupleKey "u" "a.pdf") = CheckResult.ok true :=
  ⟨by decide, claim_C1 embed0 vs1 checkOnlyA [] "q" "u" "a.pdf" (by decide)⟩

/-- C2 counterexample: with the authorization service unavailable for the
single fetched candidate, the whole `search_tool` call raises (the
`allowed` subscript fails), so a failed check does make the whole search
operation fail with an error, contrary to the claim. -/
theorem claim_C2_counterexample :
    (search_tool embed0 vs1 checkErr [] "q" "u").raised = true := by decide

/-- C2 amended: a failed-to-check candidate is never treated as allowed
(no "Access Granted" line is ever printed for it), but the failure is not
absorbed: if any fetched candidate fails to check, the whole search
operation raises. -/
theorem claim_C2_amended_holds (embed : String → Embedding)
    (vectorSearch : VSQuery → List Chunk → List Chunk)
    (check : TupleKey → CheckResult) (state : List Chunk)
    (text USER_ID : String) :
    ((∃ doc ∈ vectorSearch (searchQuery embed text) state,
        check (searchTupleKey USER_ID doc.source) = CheckResult.err) →
      (search_tool embed vectorSearch check state text USER_ID).raised = true) ∧
    (∀ source : String,
      Event.accessGranted USER_ID source ∈
        (search_tool embed vectorSearch check state text USER_ID).events →
      check (searchTupleKey USER_ID source) ≠ CheckResult.err) := by
  constructor
  · intro hex
    exact searchLoop_raised_of_err check USER_ID
      (vectorSearch (searchQuery embed text) state) hex
  · intro source hmem
    have := searchLoop_granted_ok check USER_ID
      (vectorSearch (searchQuery embed text) state) source hmem
    rw [this]
    simp

/-- Witness for the amended C2 at concrete runs: an unavailable service
makes the call raise, and a granted candidate was not a failed check. -/
theorem claim_C2_witness :
    (search_tool embed0 vs1 checkErr [] "q" "u").raised = true ∧
    checkOnlyA (searchTupleKey "u" "a.pdf") ≠ CheckResult.err :=
  ⟨(claim_C2_amended_holds embed0 vs1 checkErr [] "q" "u").1
      ⟨chunkA, by decide, rfl⟩,
   (claim_C2_amended_holds embed0 vs1 checkOnlyA [] "q" "u").2 "a.pdf" (by decide)⟩

/-- C3 counterexample: two runs with equal authorized (granted) result
sets but a different number of denied candidates produce different
caller-observable printed output — the code prints one "Access Denied"
line per denied candidate, revealing denials. -/
theorem claim_C3_counterexample :
    grantedEvents (search_tool embed0 vs1 checkOnlyA [] "q" "u") =
      grantedEvents (search_tool embed0 vs2 checkOnlyA [] "q" "u") ∧
    (search_tool embed0 vs1 checkOnlyA [] "q" "u").events ≠
      (search_tool embed0 vs2 checkOnlyA [] "q" "u").events := by decide

/-- C3 amended: the value returned to the caller is always `None`, equal
across runs regardless of denials, but the printed output contains one
"Access Denied" line per denied candidate (when no check raises), so the
printed channel does reveal each denied candidate. -/
theorem claim_C3_amended_holds (embed : String → Embedding)
    (vectorSearch : VSQuery → List Chunk → List Chunk)
    (check : TupleKey → CheckResult) (state : List Chunk)
    (text USER_ID : String) :
    (search_tool embed vectorSearch check state text USER_ID).retval =
      PyValue.none ∧
    ((∀ doc ∈ vectorSearch (searchQuery embed text) state,
        check (searchTupleKey USER_ID doc.source) ≠ CheckResult.err) →
      ∀ doc ∈ vectorSearch (searchQuery embed text) state,
        check (searchTupleKey USER_ID doc.source) = CheckResult.ok false →
        Event.accessDenied USER_ID doc.source ∈
          (search_tool embed vectorSearch check state text USER_ID).events) := by
  refine ⟨searchLoop_retval check USER_ID _, ?_⟩
  intro hok doc hdoc hdenied
  exact searchLoop_denied_mem check USER_ID
    (vectorSearch (searchQuery embed text) state) hok doc hdoc hdenied

/-- Witness for the amended C3 at a concrete run: the return value is
`None` and the denied candidate `chunkB` has its denial line printed. -/
theorem claim_C3_witness :
    (search_tool embed0 vs2 checkOnlyA [] "q" "u").retval = PyValue.none ∧
    Event.accessDenied "u" "b.pdf" ∈
      (search_tool embed0 vs2 checkOnlyA [] "q" "u").events :=
  ⟨(claim_C3_amended_holds embed0 vs2 checkOnlyA [] "q" "u").1,
   (claim_C3_amended_holds embed0 vs2 checkOnlyA [] "q" "u").2
      (by decide) chunkB (by decide) (by decide)⟩

/-- C4 counterexample: ingesting `a.pdf` destroys a stored chunk of the
unrelated source `b.pdf`, and the unconditional delete is the first
operation issued — before any chunk write — so an ingestion that writes no
chunk leaves the collection empty. -/
theorem claim_C4_counterexample :
    chunkB.source ≠ "a.pdf" ∧
    chunkB ∈ ([chunkB] : List Chunk) ∧
    partition_pdf partitionEmpty embedIngest0 [chunkB] "a.pdf" = [] ∧
    (partitionPdfOps partitionEmpty embedIngest0 "a.pdf").head? =
      some DbOp.deleteAllDocs := by decide

/-- C4 amended: the deletion performed by `partition_pdf` is not scoped to
the ingested `sourceId` and is not deferred: its first operation is an
unconditional `delete_many` of the entire collection, and the final state
is exactly the new chunks of the ingested resource, whatever was stored
before for any source. -/
theorem claim_C4_amended_holds (p : String → List Element)
    (e : String → String → Embedding) (s : List Chunk) (resource : String) :
    (partitionPdfOps p e resource).head? = some DbOp.deleteAllDocs ∧
    partition_pdf p e s resource = (p resource).map (chunkOf e resource) :=
  ⟨rfl, partition_pdf_eq p e s resource⟩

/-- Witness for the amended C4 at a concrete ingestion: the delete comes
first and the prior chunk of another source is gone. -/
theorem claim_C4_witness :
    (partitionPdfOps partitionEmpty embedIngest0 "a.pdf").head? =
      some DbOp.deleteAllDocs ∧
    partition_pdf partitionEmpty embedIngest0 [chunkB] "a.pdf" =
      (partitionEmpty "a.pdf").map (chunkOf embedIngest0 "a.pdf") :=
  claim_C4_amended_holds partitionEmpty embedIngest0 [chunkB] "a.pdf"

/-- C5 counterexample: in the trace of `main("demo_user", "demo.pdf")` the
FGA tuple write is the very first step, while a chunk insert occurs
strictly later — the VisibilityTuple is written before chunk persistence,
not after it. -/
theorem claim_C5_counterexample :
    (mainTrace partitionOne embedIngest0 "demo_user" "demo.pdf").head? =
      some (MainStep.fgaWrite (addTupleKey "demo_user" "demo.pdf")) ∧
    MainStep.dbOp (DbOp.insertOne
        (chunkOf embedIngest0 "demo.pdf" { text := "alpha", dict := "d" })) ∈
      (mainTrace partitionOne embedIngest0 "demo_user" "demo.pdf").tail := by
  decide

/-- C5 amended: `main` writes the VisibilityTuple first — `fga_setup` is
its first step, so the tuple write precedes every collection write of the
ingestion. -/
theorem claim_C5_amended_holds (p : String → List Element)
    (e : String → String → Embedding) (user resource : String) :
    (mainTrace p e user resource).head? =
      some (MainStep.fgaWrite (addTupleKey user resource)) ∧
    (∀ op : DbOp, MainStep.dbOp op ∈ mainTrace p e user resource →
      MainStep.dbOp op ∈ (mainTrace p e user resource).tail) := by
  constructor
  · rfl
  · intro op hop
    simp only [mainTrace, List.tail_cons]
    rcases List.mem_cons.mp hop with heq | hmem
    · exact absurd heq (by simp)
    · simpa [mainTrace] using hmem

/-- Witness for the amended C5 at a concrete run: the first step is the
tuple write and the single chunk insert sits in the tail. -/
theorem claim_C5_witness :
    (mainTrace partitionOne embedIngest0 "demo_user" "demo.pdf").head? =
      some (MainStep.fgaWrite (addTupleKey "demo_user" "demo.pdf")) ∧
    MainStep.dbOp (DbOp.insertOne
        (chunkOf embedIngest0 "demo.pdf" { text := "alpha", dict := "d" })) ∈
      (mainTrace partitionOne embedIngest0 "demo_user" "demo.pdf").tail :=
  ⟨(claim_C5_amended_holds partitionOne embedIngest0 "demo_user" "demo.pdf").1,
   (claim_C5_amended_holds partitionOne embedIngest0 "demo_user" "demo.pdf").2
      (DbOp.insertOne (chunkOf embedIngest0 "demo.pdf" { text := "alpha", dict := "d" }))
      (by decide)⟩

/-- C6: the `$vectorSearch` stage built by `search_tool` requests result
limit 5 and asks the index to consider the top `numCandidates = 30 = 6 * 5`
candidates by similarity — an overfetch factor of 6, which is at least 1. -/
theorem claim_C6 (embed : String → Embedding) (text : String) :
    (searchQuery embed text).limit = 5 ∧
    (searchQuery embed text).numCandidates = 6 * (searchQuery embed text).limit ∧
    1 ≤ (searchQuery embed text).numCandidates / (searchQuery embed text).limit :=
  ⟨rfl, rfl, by show (1 : Nat) ≤ 30 / 5; decide⟩

/-- Witness for C6 at a concrete query: limit 5, numCandidates 30. -/
theorem claim_C6_witness :
    (searchQuery embed0 "q").limit = 5 ∧
    (searchQuery embed0 "q").numCandidates = 6 * (searchQuery embed0 "q").limit ∧
    1 ≤ (searchQuery embed0 "q").numCandidates / (searchQuery embed0 "q").limit :=
  claim_C6 embed0 "q"

/-- C7: whenever every fetched candidate check returns an answer (allowed
true or false) — in particular for a subject with no granted tuple, whose
checks all return allowed = false — `search_tool` completes without
raising and returns `None`, however few candidates were authorized. -/
theorem claim_C7 (embed : String → Embedding)
    (vectorSearch : VSQuery → List Chunk → List Chunk)
    (check : TupleKey → CheckResult) (state : List Chunk)
    (text USER_ID : String)
    (h : ∀ doc ∈ vectorSearch (searchQuery embed text) state,
        check (searchTupleKey USER_ID doc.source) ≠ CheckResult.err) :
    (search_tool embed vectorSearch check state text USER_ID).raised = false ∧
    (search_tool embed vectorSearch check state text USER_ID).retval =
      PyValue.none :=
  ⟨searchLoop_not_raised check USER_ID _ h, searchLoop_retval check USER_ID _⟩

/-- Witness for C7 at a concrete run: a subject every check denies gets a
normal, empty-granted completion, not an error. -/
theorem claim_C7_witness :
    (search_tool embed0 vs2 checkDenyAll [] "q" "u-denyme").raised = false ∧
    (search_tool embed0 vs2 checkDenyAll [] "q" "u-denyme").retval =
      PyValue.none :=
  claim_C7 embed0 vs2 checkDenyAll [] "q" "u-denyme" (by decide)

/-- C8: re-running `partition_pdf` on the same resource with the same
partitioner and embedder is idempotent: the collection state, hence the
stored chunk count and the outcome of every subsequent `search_tool` call,
is identical after the second ingestion and after the first. -/
theorem claim_C8 (p : String → List Element)
    (e : String → String → Embedding)
    (embed : String → Embedding)
    (vectorSearch : VSQuery → List Chunk → List Chunk)
    (check : TupleKey → CheckResult)
    (s : List Chunk) (resource text USER_ID : String) :
    partition_pdf p e (partition_pdf p e s resource) resource =
      partition_pdf p e s resource ∧
    (partition_pdf p e (partition_pdf p e s resource) resource).length =
      (partition_pdf p e s resource).length ∧
    search_tool embed vectorSearch check
        (partition_pdf p e (partition_pdf p e s resource) resource) text USER_ID =
      search_tool embed vectorSearch check
        (partition_pdf p e s resource) text USER_ID := by
  have hstate : partition_pdf p e (partition_pdf p e s resource) resource =
      partition_pdf p e s resource := by
    rw [partition_pdf_eq, partition_pdf_eq]
  exact ⟨hstate, by rw [hstate], by rw [hstate]⟩

/-- Witness for C8 at a concrete double ingestion of `demo.pdf`. -/
theorem claim_C8_witness :
    partition_pdf partitionOne embedIngest0
        (partition_pdf partitionOne embedIngest0 [chunkB] "demo.pdf") "demo.pdf" =
      partition_pdf partitionOne embedIngest0 [chunkB] "demo.pdf" :=
  (claim_C8 partitionOne embedIngest0 embed0 vs1 checkDenyAll [chunkB]
    "demo.pdf" "q" "u").1

/-- C9: round trip between the write and read sides: every chunk stored by
`partition_pdf(R)` carries `source = R`, and the check key `search_tool`
builds for user `U` and such a chunk is exactly the tuple key that
`add_tuple(U, R)` writes. -/
theorem claim_C9 (p : String → List Element)
    (e : String → String → Embedding)
    (s : List Chunk) (U R : String) (c : Chunk)
    (hc : c ∈ partition_pdf p e s R) :
    c.source = R ∧
    searchTupleKey U c.source = addTupleKey U R ∧
    searchTupleKey U c.source ∈ addTupleWriteKeys U R := by
  rw [partition_pdf_eq] at hc
  obtain ⟨el, -, hel⟩ := List.mem_map.mp hc
  have hsrc : c.source = R := by rw [← hel]; rfl
  refine ⟨hsrc, ?_, ?_⟩
  · rw [hsrc]; rfl
  · rw [hsrc]
    simp [addTupleWriteKeys, searchTupleKey, addTupleKey]

/-- Witness for C9 at a concrete ingestion: the single stored chunk of
`demo.pdf` carries that source and its search check key equals the written
tuple key. -/
theorem claim_C9_witness :
    (chunkOf embedIngest0 "demo.pdf" { text := "alpha", dict := "d" }).source =
      "demo.pdf" ∧
    searchTupleKey "demo_user"
        (chunkOf embedIngest0 "demo.pdf" { text := "alpha", dict := "d" }).source =
      addTupleKey "demo_user" "demo.pdf" ∧
    searchTupleKey "demo_user"
        (chunkOf embedIngest0 "demo.pdf" { text := "alpha", dict := "d" }).source ∈
      addTupleWriteKeys "demo_user" "demo.pdf" :=
  claim_C9 partitionOne embedIngest0 [] "demo_user" "demo.pdf"
    (chunkOf embedIngest0 "demo.pdf" { text := "alpha", dict := "d" }) (by decide)

/-- C10: `search_tool` never returns a value to its caller: for every
input the returned value is `None` — in particular it is never a list of
chunks — so ranked results and authorization outcomes reach the outside
only through the printed lines. -/
theorem claim_C10 (embed : String → Embedding)
    (vectorSearch : VSQuery → List Chunk → List Chunk)
    (check : TupleKey → CheckResult) (state : List Chunk)
    (text USER_ID : String) :
    (search_tool embed vectorSearch check state text USER_ID).retval =
      PyValue.none ∧
    ∀ cs : List Chunk,
      (search_tool embed vectorSearch check state text USER_ID).retval ≠
        PyValue.chunkList cs := by
  have h := searchLoop_retval check USER_ID
    (vectorSearch (searchQuery embed text) state)
  exact ⟨h, fun cs => by rw [show (search_tool embed vectorSearch check state
    text USER_ID).retval = PyValue.none from h]; simp⟩

/-- Witness for C10 at a concrete run: the call returns `None`. -/
theorem claim_C10_witness :
    (search_tool embed0 vs2 checkOnlyA [] "q" "u").retval = PyValue.none :=
  (claim_C10 embed0 vs2 checkOnlyA [] "q" "u").1

end Demo
